import Mathlib

/-!
A formal model of the probing engine of `new_pinger.py` (multiping_ng).

The Python source is embedded shallowly: each `TestResult` (one ICMP or TCP
test with its ring-buffer history) becomes a Lean structure; the per-tick
update `MultiPing.update_tests` becomes a pure function from the tests and
the per-test future results to the updated tests; time strings
(`time.strftime("%c")`) are passed in as parameters; latencies are modelled
as rational numbers with the source's `-1` sentinel; an exception raised by
a prober, or a missed `future.result(timeout=0.5)` wait, is an
`Except.error` input.  Every function also returns the list of history
indices it writes, so write-count invariants can be stated.
-/

/-- ANSI bold escape, `BOLD` in the source. -/
def BOLD : String := "\x1b[1m"

/-- ANSI reset escape, `RESET` in the source. -/
def RESET : String := "\x1b[0m"

/-- ANSI yellow escape, `YELLOW` in the source. -/
def YELLOW : String := "\x1b[33m"

/-- Python's `str.upper()` modelled as a character-wise upper-case map
(the protocol names of the source are plain ASCII). -/
def str_upper (s : String) : String := String.mk (s.data.map Char.toUpper)

/-- One test's state (`TestResult` in the source): protocol ("ICMP" or
"TCP"), optional TCP port, the fixed-length history of symbol strings, the
last latency in ms (`-1` means no response), the `last_seen` text and the
TCP `service` text. -/
structure TestResult where
  protocol : String
  port : Option Nat
  history : List String
  latency : ℚ
  last_seen : String
  service : String
deriving DecidableEq

instance : Inhabited TestResult :=
  ⟨⟨"", none, [], -1, "", ""⟩⟩

/-- `TestResult.__init__`: upper-cases the protocol, pre-fills the history
with `history_length` copies of `"."`, sets the no-response sentinel `-1`,
and stamps `last_seen` with `"Last seen: "` plus the construction time
(`time.strftime("%c")`, passed here as the string `ctime`). -/
def TestResult.init (protocol : String) (port : Option Nat)
    (history_length : Nat) (ctime : String) : TestResult :=
  { protocol := str_upper protocol
    port := port
    history := List.replicate history_length "."
    latency := -1
    last_seen := "Last seen: " ++ ctime
    service := "" }

/-- `TestResult.update_history`: `self.history[index] = symbol`. -/
def TestResult.update_history (t : TestResult) (index : Nat)
    (symbol : String) : TestResult :=
  { t with history := t.history.set index symbol }

/-- `TestResult.get_history_string`: appends
`history[(current_index - i + history_length) % history_length]` for
`i = 0 .. history_length - 1` (Python `%` on a positive modulus agrees with
`Int.emod`). -/
def TestResult.get_history_string (t : TestResult) (current_index : Nat)
    (history_length : Nat) : String :=
  (List.range history_length).foldl
    (fun s i =>
      s ++ t.history.getD
        ((((current_index : Int) - (i : Int) + (history_length : Int))
            % (history_length : Int)).toNat) "") ""

/-- `MultiPing.symbol_for_latency`: `None` and latencies below 10 ms give
`"."`, latencies in `[10, 100)` give the emphasised `"o"`, and `100` ms and
above give `"O"`. -/
def symbol_for_latency (latency : Option ℚ) : String :=
  match latency with
  | none => "."
  | some l =>
      if l < 10 then "."
      else if l < 100 then BOLD ++ YELLOW ++ "o" ++ RESET
      else "O"

/-- A prober outcome as the scheduler sees it: either the returned pair
`(up, latency)` or an exception — covering both an exception raised inside
the prober and a failure of `future.result(timeout=0.5)`. -/
abbrev ProbeResult := Except Unit (Bool × Option ℚ)

/-- Lines 208–211 of the source: `try: result = future.result(timeout=0.5)`
`except Exception: result = (False, None)`. -/
def normalize_result (r : ProbeResult) : Bool × Option ℚ :=
  match r with
  | .ok v => v
  | .error _ => (false, none)

/-- `MultiPing.run_tcp_test`, with the socket connection modelled by an
oracle: `Except.ok latency` when the handshake succeeds after `latency` ms,
`Except.error` for any exception (refused, timeout, unreachable, reset).
The source returns `(True, latency)` on success and `(False, None)` from
the `except` clause. -/
def run_tcp_test (conn : Except Unit ℚ) : Bool × Option ℚ :=
  match conn with
  | .ok latency => (true, some latency)
  | .error _ => (false, none)

/-- The pre-mark step for one test (`update_tests` lines 189–192): write
`"X"` at the current index and reset the latency sentinel.  Returns the
updated test together with the history indices written. -/
def premark (current_index : Nat) (t : TestResult) : TestResult × List Nat :=
  ({ t.update_history current_index "X" with latency := -1 }, [current_index])

/-- The outcome step for one test (`update_tests` lines 207–236): normalize
the future result, then branch on protocol and liveness exactly as the
source does; `now` is the value of `time.strftime("%c")` at this tick.
Returns the updated test and the history indices written in this step. -/
def apply_outcome (current_index : Nat) (now : String) (t : TestResult)
    (r : ProbeResult) : TestResult × List Nat :=
  let up := (normalize_result r).1
  let latency := (normalize_result r).2
  if t.protocol = "ICMP" then
    if up then
      let t1 := { t with latency := latency.getD 0 }
      let t2 := t1.update_history current_index (symbol_for_latency latency)
      ({ t2 with last_seen := "" }, [current_index])
    else
      let t1 := { t with latency := -1 }
      let t2 := if t1.last_seen = "" then
          { t1 with last_seen := "Last seen: " ++ now } else t1
      (t2.update_history current_index "X", [current_index])
  else if t.protocol = "TCP" then
    if up then
      let t1 := { t with latency := latency.getD 0 }
      let t2 := t1.update_history current_index (symbol_for_latency latency)
      ({ t2 with last_seen := "", service := "open" }, [current_index])
    else
      let t1 := { t with latency := -1 }
      let t2 := if t1.last_seen = "" then
          { t1 with last_seen := "Last seen: " ++ now } else t1
      ({ t2.update_history current_index "X" with service := "closed" },
        [current_index])
  else (t, [])

/-- One full tick for a single test: the pre-mark write followed by the
outcome application — the per-test composition of the two phases of
`MultiPing.update_tests`.  The trace collects every history index written
for this test during the tick. -/
def tick (current_index : Nat) (now : String) (t : TestResult)
    (r : ProbeResult) : TestResult × List Nat :=
  let p := premark current_index t
  let q := apply_outcome current_index now p.1 r
  (q.1, p.2 ++ q.2)

/-- Phase 1 of `MultiPing.update_tests` (lines 189–192): the pre-mark loop
over every test, run to completion before anything is dispatched. -/
def premark_phase (current_index : Nat) (tests : List TestResult) :
    List (TestResult × List Nat) :=
  tests.map (premark current_index)

/-- `MultiPing.update_tests` over the flattened list of tests, given the
per-test future results: the pre-mark loop over all tests first, then the
outcome loop.  Each output pairs the updated test with every history index
written for it during the tick. -/
def update_tests (current_index : Nat) (now : String)
    (tests : List TestResult) (results : List ProbeResult) :
    List (TestResult × List Nat) :=
  ((premark_phase current_index tests).zip results).map
    (fun p =>
      let q := apply_outcome current_index now p.1.1 p.2
      (q.1, p.1.2 ++ q.2))

/-- The end-of-tick pointer update in `MultiPing.run` (lines 266–268):
`current_index -= 1; if current_index < 0: current_index = history_length - 1`. -/
def next_index (history_length : Nat) (i : Int) : Int :=
  if i - 1 < 0 then (history_length : Int) - 1 else i - 1

/-- The shared pointer value at the start of tick `k`:
`MultiPing.__init__` sets `current_index = history_length - 1` (line 79),
and each tick ends with `next_index`. -/
def index_seq (history_length : Nat) : Nat → Int
  | 0 => (history_length : Int) - 1
  | k + 1 => next_index history_length (index_seq history_length k)

/-- A host (`Host.__init__`), past its IPv4 validation (which calls
`sys.exit` before any `Host` exists): an empty (falsy) test list is
replaced by a single default ICMP test. -/
structure Host where
  ip : String
  description : String
  tests : List TestResult
  history_length : Nat
deriving DecidableEq

/-- `Host.__init__`'s field assignments (after IPv4 validation):
`self.tests = tests if tests else [TestResult("ICMP", history_length=...)]`. -/
def Host.init (ip description : String) (tests : List TestResult)
    (history_length : Nat) (ctime : String) : Host :=
  { ip := ip
    description := description
    tests := if tests.isEmpty then
        [TestResult.init "ICMP" none history_length ctime] else tests
    history_length := history_length }

/-- Splitting a character list at every `'-'`, modelling Python's
`port_val.split("-")` for the single-character separator used by
`load_config` (line 115). -/
def split_dash : List Char → List (List Char)
  | [] => [[]]
  | c :: cs =>
      if c = '-' then [] :: split_dash cs
      else
        match split_dash cs with
        | [] => [[c]]
        | r :: rs => (c :: r) :: rs

/-- Python `int()` on a non-negative decimal string (the form a port range
bound takes): every character a digit, value by base-10 accumulation;
`none` models the `ValueError` Python raises otherwise. -/
def parse_nat (cs : List Char) : Option Nat :=
  if cs ≠ [] ∧ cs.all (fun c => c.isDigit) then
    some (cs.foldl (fun n c => n * 10 + (c.toNat - 48)) 0)
  else none

/-- The port-range arm of `MultiPing.load_config` (lines 113–119), taken
when the port string contains `"-"`: split on `"-"` into exactly two parts,
parse both as integers, and take Python's `range(start, end + 1)` — the
inclusive list of ports, empty when `start > end`.  `none` models the
`sys.exit` on a split or parse failure. -/
def expand_port_range (port_val : String) : Option (List Nat) :=
  match split_dash port_val.data with
  | [a, b] =>
      match parse_nat a, parse_nat b with
      | some s, some e => some (List.range' s (e + 1 - s))
      | _, _ => none
  | _ => none

/-- The tests built for a TCP test with a range-string port: one
`TestResult("TCP", p, history_length)` per expanded port
(`load_config` lines 116–117). -/
def tcp_tests_for_range (port_val : String) (history_length : Nat)
    (ctime : String) : Option (List TestResult) :=
  (expand_port_range port_val).map
    (List.map (fun p => TestResult.init "TCP" (some p) history_length ctime))

/-- The spec's `renderHistory`: the concatenation of the `N` symbols at
indices `(currentIndex - i + N) mod N` for `i = 0 .. N - 1`, in that
order. -/
def renderHistory_spec (history : List String) (current_index N : Nat) :
    String :=
  String.join ((List.range N).map (fun i =>
    history.getD
      ((((current_index : Int) - (i : Int) + (N : Int)) % (N : Int)).toNat)
      ""))

/-- Folding failing ticks (the prober returned `(False, None)`) over a
test, one `(index, time-string)` pair per tick: the tick loop of
`MultiPing.run` restricted to one test that is down throughout. -/
def run_fail_ticks (t : TestResult) (fails : List (Nat × String)) :
    TestResult :=
  fails.foldl (fun s p => (tick p.1 p.2 s (Except.ok (false, none))).1) t

/-! Helper lemmas about single-test ticks. -/

/-- A stamped last-seen string is never the empty string. -/
theorem stamp_ne_empty (now : String) : "Last seen: " ++ now ≠ "" := by
  intro h
  have h2 : ("Last seen: " ++ now).length = (0 : Nat) := by rw [h]; rfl
  rw [String.length_append] at h2
  have h3 : ("Last seen: " : String).length = 11 := by decide
  omega

/-- The outcome step never changes the protocol field. -/
theorem apply_outcome_protocol (ci : Nat) (now : String) (t : TestResult)
    (r : ProbeResult) : ((apply_outcome ci now t r).1).protocol = t.protocol := by
  simp only [apply_outcome]
  split_ifs <;> rfl

/-- A tick never changes the protocol field. -/
theorem tick_protocol (ci : Nat) (now : String) (t : TestResult)
    (r : ProbeResult) : ((tick ci now t r).1).protocol = t.protocol :=
  apply_outcome_protocol ci now (premark ci t).1 r

/-- The outcome step writes exactly once, at the current index, when the
protocol is ICMP or TCP, and not at all otherwise. -/
theorem apply_outcome_trace (ci : Nat) (now : String) (t : TestResult)
    (r : ProbeResult) :
    (apply_outcome ci now t r).2
      = if t.protocol = "ICMP" ∨ t.protocol = "TCP" then [ci] else [] := by
  simp only [apply_outcome]
  split_ifs <;> simp_all

/-- A tick's write trace is the pre-mark write followed by the outcome
step's writes. -/
theorem tick_trace_eq (ci : Nat) (now : String) (t : TestResult)
    (r : ProbeResult) :
    (tick ci now t r).2 = [ci] ++ (apply_outcome ci now (premark ci t).1 r).2 :=
  rfl

/-- Every index a tick writes is the current index. -/
theorem tick_trace_mem (ci : Nat) (now : String) (t : TestResult)
    (r : ProbeResult) : ∀ j ∈ (tick ci now t r).2, j = ci := by
  intro j hj
  rw [tick_trace_eq, apply_outcome_trace] at hj
  split_ifs at hj <;> simp_all

/-- A tick preserves the length of the history buffer. -/
theorem tick_history_length (ci : Nat) (now : String) (t : TestResult)
    (r : ProbeResult) :
    ((tick ci now t r).1).history.length = t.history.length := by
  simp only [tick, premark, apply_outcome, TestResult.update_history]
  split_ifs <;> simp [List.length_set]

/-- A failing tick on a test whose `last_seen` is non-empty leaves
`last_seen` unchanged. -/
theorem tick_fail_last_seen_keep (ci : Nat) (now : String) (t : TestResult)
    (h : ¬ t.last_seen = "") :
    ((tick ci now t (Except.ok (false, none))).1).last_seen = t.last_seen := by
  simp only [tick, premark, apply_outcome, normalize_result,
    TestResult.update_history]
  split_ifs <;> simp_all

/-- A failing tick on an ICMP or TCP test whose `last_seen` is empty stamps
it with the current time. -/
theorem tick_fail_stamp (ci : Nat) (now : String) (t : TestResult)
    (hp : t.protocol = "ICMP" ∨ t.protocol = "TCP") (h0 : t.last_seen = "") :
    ((tick ci now t (Except.ok (false, none))).1).last_seen
      = "Last seen: " ++ now := by
  simp only [tick, premark, apply_outcome, normalize_result,
    TestResult.update_history]
  rcases hp with hp | hp <;> split_ifs <;> simp_all

/-- A successful tick on an ICMP or TCP test clears `last_seen`. -/
theorem tick_success_clear (ci : Nat) (now : String) (t : TestResult)
    (l : Option ℚ) (hp : t.protocol = "ICMP" ∨ t.protocol = "TCP") :
    ((tick ci now t (Except.ok (true, l))).1).last_seen = "" := by
  simp only [tick, premark, apply_outcome, normalize_result,
    TestResult.update_history]
  rcases hp with hp | hp <;> split_ifs <;> simp_all

/-- Running any number of failing ticks over a test whose `last_seen` is
non-empty leaves both `last_seen` and the protocol unchanged. -/
theorem run_fail_ticks_keep :
    ∀ (fails : List (Nat × String)) (t : TestResult), t.last_seen ≠ "" →
      (run_fail_ticks t fails).last_seen = t.last_seen ∧
      (run_fail_ticks t fails).protocol = t.protocol
  | [], t, _ => ⟨rfl, rfl⟩
  | f :: fs, t, h => by
      have h1 := tick_fail_last_seen_keep f.1 f.2 t h
      have h2 := tick_protocol f.1 f.2 t (Except.ok (false, none))
      have hcons : run_fail_ticks t (f :: fs)
          = run_fail_ticks (tick f.1 f.2 t (Except.ok (false, none))).1 fs := rfl
      have ih := run_fail_ticks_keep fs
        (tick f.1 f.2 t (Except.ok (false, none))).1 (by rw [h1]; exact h)
      rw [hcons]
      exact ⟨ih.1.trans h1, ih.2.trans h2⟩

/-- `update_tests` on cons cells peels off one per-test tick. -/
theorem update_tests_cons (ci : Nat) (now : String) (t : TestResult)
    (ts : List TestResult) (r : ProbeResult) (rs : List ProbeResult) :
    update_tests ci now (t :: ts) (r :: rs)
      = tick ci now t r :: update_tests ci now ts rs := rfl

instance : Inhabited ProbeResult := ⟨Except.ok (false, none)⟩

/-- Each entry of `update_tests` is the per-test tick of the corresponding
test and result: one probe's recorded state depends only on its own test
and its own result. -/
theorem update_tests_pointwise (ci : Nat) (now : String) :
    ∀ (tests : List TestResult) (results : List ProbeResult) (i : Nat),
      i < tests.length → i < results.length →
      (update_tests ci now tests results).getD i default
        = tick ci now (tests.getD i default) (results.getD i default)
  | [], _, i, h1, _ => by simp at h1
  | _ :: _, [], i, _, h2 => by simp at h2
  | t :: ts, r :: rs, 0, _, _ => by
      rw [update_tests_cons]; rfl
  | t :: ts, r :: rs, i + 1, h1, h2 => by
      rw [update_tests_cons]
      simp only [List.getD_cons_succ]
      exact update_tests_pointwise ci now ts rs i
        (by simpa using h1) (by simpa using h2)

/-- The pre-mark step resets the latency sentinel and writes the failure
symbol at the current index (for any in-range current index). -/
theorem premark_state (ci : Nat) (t : TestResult) (h : ci < t.history.length) :
    ((premark ci t).1).history.getD ci "" = "X" ∧
    ((premark ci t).1).latency = -1 := by
  constructor
  · simp [premark, TestResult.update_history,
      List.getD_eq_getElem?_getD, List.getElem?_set_self, h]
  · rfl

/-- The cyclic tick pointer stays in `[0, N)` for a positive length `N`. -/
theorem index_seq_bounds (N : Nat) (hN : 0 < N) :
    ∀ k, 0 ≤ index_seq N k ∧ index_seq N k < N
  | 0 => by
      simp only [index_seq]
      omega
  | k + 1 => by
      have ih := index_seq_bounds N hN k
      simp only [index_seq, next_index]
      split_ifs <;> omega

/-! Claim theorems. -/

/-- C1 counterexample: in the source, an absent latency and a fast latency
(5 ms) map to the same symbol `"."` — the classifier has no distinct DOWN
symbol for absent latency (the failure symbol `"X"` is written by the
recorder's failure path and is never returned by `symbol_for_latency`). -/
theorem symbol_for_latency_absent_not_distinct :
    symbol_for_latency none = symbol_for_latency (some 5) ∧
    symbol_for_latency none = "." ∧ symbol_for_latency none ≠ "X" := by
  decide

/-- C1 (amended): `symbol_for_latency` is a total deterministic function of
the latency alone: an absent latency maps to `"."` — the same symbol as a
fast latency, not a distinct DOWN symbol — latency below 10 ms maps to
`"."`, latency in `[10, 100)` ms maps to the emphasised `"o"`, and latency
of 100 ms and above maps to `"O"`. -/
theorem symbol_for_latency_thresholds (l : ℚ) :
    symbol_for_latency none = "." ∧
    (l < 10 → symbol_for_latency (some l) = ".") ∧
    (10 ≤ l → l < 100 →
      symbol_for_latency (some l) = BOLD ++ YELLOW ++ "o" ++ RESET) ∧
    (100 ≤ l → symbol_for_latency (some l) = "O") := by
  refine ⟨rfl, fun h => ?_, fun h1 h2 => ?_, fun h => ?_⟩
  · simp [symbol_for_latency, h]
  · simp [symbol_for_latency, not_lt.mpr h1, h2]
  · have h1 : ¬ l < 10 := not_lt.mpr (le_trans (by norm_num) h)
    have h2 : ¬ l < 100 := not_lt.mpr h
    simp [symbol_for_latency, h1, h2]

/-- Witness for C1's amended theorem at latencies 5, 50 and 200 ms. -/
theorem symbol_for_latency_thresholds_witness :
    symbol_for_latency (some 5) = "." ∧
    symbol_for_latency (some 50) = BOLD ++ YELLOW ++ "o" ++ RESET ∧
    symbol_for_latency (some 200) = "O" :=
  ⟨(symbol_for_latency_thresholds 5).2.1 (by norm_num),
   (symbol_for_latency_thresholds 50).2.2.1 (by norm_num) (by norm_num),
   (symbol_for_latency_thresholds 200).2.2.2 (by norm_num)⟩

/-- C6: `get_history_string` is exactly the spec's `renderHistory` — the
concatenation of the `N` symbols at indices `(currentIndex - i + N) mod N`
for `i = 0 .. N - 1`, in that order — and on the 5-slot buffer
`[A, B, C, D, E]` with current index 4 it yields `"EDCBA"`. -/
theorem get_history_string_matches_render_spec :
    (∀ (t : TestResult) (ci N : Nat),
      t.get_history_string ci N = renderHistory_spec t.history ci N) ∧
    ({ TestResult.init "ICMP" none 5 "c" with
        history := ["A", "B", "C", "D", "E"] } : TestResult).get_history_string 4 5
      = "EDCBA" := by
  constructor
  · intro t ci N
    simp [TestResult.get_history_string, renderHistory_spec, String.join,
      List.foldl_map]
  · decide

/-- C10: the inverted range `"8002-8000"` (start above end) expands to zero
TCP tests with no configuration error, and `Host.__init__` silently
replaces an empty test list with a single default ICMP test, so the
malformed range is masked rather than reported. -/
theorem inverted_range_yields_default_icmp (ip desc ctime : String) (N : Nat) :
    tcp_tests_for_range "8002-8000" N ctime = some [] ∧
    (Host.init ip desc [] N ctime).tests
      = [TestResult.init "ICMP" none N ctime] := by
  constructor
  · have h : expand_port_range "8002-8000" = some [] := by decide
    simp [tcp_tests_for_range, h]
  · rfl

/-- C2 counterexample: at a concrete tick, a single ICMP test receives two
history writes — the pre-mark write and the outcome write — not exactly
one. -/
theorem update_tests_not_single_write :
    ((update_tests 4 "now" [TestResult.init "ICMP" none 5 "c"]
        [Except.ok (true, some 5)]).map Prod.snd = [[4, 4]]) ∧
    (((update_tests 4 "now" [TestResult.init "ICMP" none 5 "c"]
        [Except.ok (true, some 5)]).getD 0 default).2).length ≠ 1 := by
  decide

/-- C2 (amended): for every tick and every ICMP or TCP test, exactly two
writes are made to that test's history during the tick — the pre-mark
failure write and the outcome write — and both target the single shared
current index, so exactly one slot is written per test per tick. -/
theorem update_tests_two_writes_at_current_index (ci : Nat) (now : String)
    (tests : List TestResult) (results : List ProbeResult) (i : Nat)
    (h1 : i < tests.length) (h2 : i < results.length)
    (hp : (tests.getD i default).protocol = "ICMP" ∨
          (tests.getD i default).protocol = "TCP") :
    ((update_tests ci now tests results).getD i default).2 = [ci, ci] := by
  rw [update_tests_pointwise ci now tests results i h1 h2]
  rw [tick_trace_eq, apply_outcome_trace]
  have hpp : ((premark ci (tests.getD i default)).1).protocol
      = (tests.getD i default).protocol := rfl
  rw [hpp, if_pos hp]
  rfl

/-- Witness for C2's amended theorem: one TCP test whose future raised,
at tick index 3. -/
theorem update_tests_two_writes_at_current_index_witness :
    ((update_tests 3 "now" [TestResult.init "TCP" (some 80) 5 "c"]
        [Except.error ()]).getD 0 default).2 = [3, 3] :=
  update_tests_two_writes_at_current_index 3 "now"
    [TestResult.init "TCP" (some 80) 5 "c"] [Except.error ()] 0
    (by decide) (by decide) (Or.inr (by decide))

/-- C4: `update_tests` runs the pre-mark loop over every test to completion
before the outcome phase consumes anything — the outcome phase reads
exactly the output of `premark_phase` — and after pre-marking, every test
holds the failure symbol `"X"` in its history slot at the current index and
the no-response sentinel `-1` in its latency field. -/
theorem premark_phase_runs_before_outcomes (ci : Nat) (now : String)
    (tests : List TestResult) (results : List ProbeResult)
    (h : ∀ t ∈ tests, ci < t.history.length) :
    (update_tests ci now tests results
      = ((premark_phase ci tests).zip results).map
          (fun p =>
            let q := apply_outcome ci now p.1.1 p.2
            (q.1, p.1.2 ++ q.2))) ∧
    ∀ q ∈ premark_phase ci tests,
      q.1.history.getD ci "" = "X" ∧ q.1.latency = -1 := by
  refine ⟨rfl, ?_⟩
  intro q hq
  simp only [premark_phase, List.mem_map] at hq
  obtain ⟨t, ht, rfl⟩ := hq
  exact premark_state ci t (h t ht)

/-- Witness for C4 on one ICMP test of history length 5 at index 4. -/
theorem premark_phase_runs_before_outcomes_witness :
    (∀ t ∈ [TestResult.init "ICMP" none 5 "c"], 4 < t.history.length) ∧
    ∀ q ∈ premark_phase 4 [TestResult.init "ICMP" none 5 "c"],
      q.1.history.getD 4 "" = "X" ∧ q.1.latency = -1 :=
  ⟨by decide,
   (premark_phase_runs_before_outcomes 4 "now"
      [TestResult.init "ICMP" none 5 "c"] [] (by decide)).2⟩

/-- C5: the shared cyclic index starts at `N - 1`, each tick ends by
decrementing it with wrap-around to `N - 1` when it would go below 0, it
stays in `[0, N)` forever, every history index any tick writes is below
`N`, and every tick preserves every test's history length. -/
theorem current_index_cycle (N : Nat) (hN : 0 < N) :
    index_seq N 0 = (N : Int) - 1 ∧
    (∀ k, index_seq N (k + 1)
        = if index_seq N k - 1 < 0 then (N : Int) - 1
          else index_seq N k - 1) ∧
    (∀ k, 0 ≤ index_seq N k ∧ index_seq N k < N) ∧
    (∀ (k : Nat) (now : String) (t : TestResult) (r : ProbeResult),
      ∀ j ∈ (tick ((index_seq N k).toNat) now t r).2, j < N) ∧
    (∀ (ci : Nat) (now : String) (t : TestResult) (r : ProbeResult),
      ((tick ci now t r).1).history.length = t.history.length) := by
  refine ⟨rfl, fun k => rfl, index_seq_bounds N hN, ?_, tick_history_length⟩
  intro k now t r j hj
  have hje := tick_trace_mem _ now t r j hj
  have hb := index_seq_bounds N hN k
  omega

/-- Witness for C5 at the source's default history length 35. -/
theorem current_index_cycle_witness :
    (0 : Nat) < 35 ∧ index_seq 35 0 = (35 : Int) - 1 :=
  ⟨by decide, (current_index_cycle 35 (by decide)).1⟩

/-- C3 counterexample: a test that fails on its first three ticks ever
keeps the construction-time stamp throughout; no failing tick of that
streak writes a freshly formatted current-time string. -/
theorem last_seen_initial_streak_not_fresh :
    (run_fail_ticks (TestResult.init "ICMP" none 5 "boot-time")
        [(4, "t1"), (3, "t2"), (2, "t3")]).last_seen
      = "Last seen: boot-time" ∧
    (run_fail_ticks (TestResult.init "ICMP" none 5 "boot-time")
        [(4, "t1"), (3, "t2"), (2, "t3")]).last_seen ≠ "Last seen: t1" := by
  decide

/-- C3 (amended): during a maximal run of consecutive failing ticks that is
immediately preceded by a successful tick, `last_seen` is stamped with the
freshly formatted current-time string exactly once, at the first failing
tick; subsequent failing ticks leave it unchanged, and the next successful
tick clears it.  (A streak that starts at the probe's very first tick
instead retains the construction-time string; see C9.) -/
theorem last_seen_down_streak_after_success (t : TestResult)
    (hp : t.protocol = "ICMP" ∨ t.protocol = "TCP")
    (c0 c1 c2 : Nat) (n0 n1 n2 : String) (l0 l2 : Option ℚ)
    (fails : List (Nat × String)) :
    ((tick c1 n1 (tick c0 n0 t (Except.ok (true, l0))).1
        (Except.ok (false, none))).1).last_seen = "Last seen: " ++ n1 ∧
    (run_fail_ticks (tick c1 n1 (tick c0 n0 t (Except.ok (true, l0))).1
        (Except.ok (false, none))).1 fails).last_seen = "Last seen: " ++ n1 ∧
    ((tick c2 n2 (run_fail_ticks (tick c1 n1 (tick c0 n0 t
        (Except.ok (true, l0))).1 (Except.ok (false, none))).1 fails)
        (Except.ok (true, l2))).1).last_seen = "" := by
  have hp0 : ((tick c0 n0 t (Except.ok (true, l0))).1).protocol = "ICMP" ∨
      ((tick c0 n0 t (Except.ok (true, l0))).1).protocol = "TCP" := by
    rw [tick_protocol]; exact hp
  have h00 : ((tick c0 n0 t (Except.ok (true, l0))).1).last_seen = "" :=
    tick_success_clear c0 n0 t l0 hp
  have hstamp := tick_fail_stamp c1 n1 _ hp0 h00
  have hne : ((tick c1 n1 (tick c0 n0 t (Except.ok (true, l0))).1
      (Except.ok (false, none))).1).last_seen ≠ "" := by
    rw [hstamp]; exact stamp_ne_empty n1
  have hkeep := run_fail_ticks_keep fails _ hne
  refine ⟨hstamp, hkeep.1.trans hstamp, ?_⟩
  refine tick_success_clear c2 n2 _ l2 ?_
  rw [hkeep.2, tick_protocol]
  exact hp0

/-- Witness for C3's amended theorem: success at tick index 4, failures at
indices 3, 2, 1 with times f1, f2, f3. -/
theorem last_seen_down_streak_after_success_witness :
    ((TestResult.init "ICMP" none 5 "c0").protocol = "ICMP" ∨
     (TestResult.init "ICMP" none 5 "c0").protocol = "TCP") ∧
    (run_fail_ticks (tick 3 "f1" (tick 4 "s0" (TestResult.init "ICMP" none 5 "c0")
        (Except.ok (true, some 5))).1 (Except.ok (false, none))).1
        [(2, "f2"), (1, "f3")]).last_seen = "Last seen: " ++ "f1" :=
  ⟨Or.inl (by decide),
   (last_seen_down_streak_after_success (TestResult.init "ICMP" none 5 "c0")
      (Or.inl (by decide)) 4 3 0 "s0" "f1" "s1" (some 5) none
      [(2, "f2"), (1, "f3")]).2.1⟩

/-- C9: at construction `last_seen` is the non-empty string
`"Last seen: <construction time>"`, and the failure path stamps `last_seen`
only when it is the empty string, so a test that fails from its very first
tick onward keeps the construction-time string — it is never stamped with
the time of a failing tick — until a first successful tick clears it. -/
theorem last_seen_construction_stamp_retained (protocol : String)
    (port : Option Nat) (N : Nat) (ctime : String)
    (hp : str_upper protocol = "ICMP" ∨ str_upper protocol = "TCP")
    (fails : List (Nat × String)) :
    (TestResult.init protocol port N ctime).last_seen
      = "Last seen: " ++ ctime ∧
    (TestResult.init protocol port N ctime).last_seen ≠ "" ∧
    (run_fail_ticks (TestResult.init protocol port N ctime) fails).last_seen
      = "Last seen: " ++ ctime ∧
    ∀ (c : Nat) (n : String) (l : Option ℚ),
      ((tick c n (run_fail_ticks (TestResult.init protocol port N ctime) fails)
          (Except.ok (true, l))).1).last_seen = "" := by
  have hne : (TestResult.init protocol port N ctime).last_seen ≠ "" :=
    stamp_ne_empty ctime
  have hkeep := run_fail_ticks_keep fails (TestResult.init protocol port N ctime) hne
  refine ⟨rfl, hne, hkeep.1.trans rfl, ?_⟩
  intro c n l
  refine tick_success_clear c n _ l ?_
  rw [hkeep.2]
  exact hp

/-- Witness for C9: an ICMP test failing on its first tick keeps the
construction stamp "boot". -/
theorem last_seen_construction_stamp_retained_witness :
    (str_upper "icmp" = "ICMP" ∨ str_upper "icmp" = "TCP") ∧
    (run_fail_ticks (TestResult.init "icmp" none 5 "boot")
        [(4, "t1")]).last_seen = "Last seen: " ++ "boot" :=
  ⟨Or.inl (by decide),
   (last_seen_construction_stamp_retained "icmp" none 5 "boot"
      (Or.inl (by decide)) [(4, "t1")]).2.2.1⟩

/-- C7: an exception from an individual prober — or a missed per-result
wait — is normalized at the scheduler boundary to the failure outcome
`(false, none)`: `normalize_result` and `run_tcp_test` both collapse errors
to `(false, none)`, a tick fed an error behaves exactly like a tick fed a
failed probe, and each entry of `update_tests` depends only on its own test
and its own result, so one probe's exception never prevents another probe
of the same tick from being recorded. -/
theorem prober_exception_normalized (ci : Nat) (now : String)
    (tests : List TestResult) (results : List ProbeResult) (i : Nat)
    (h1 : i < tests.length) (h2 : i < results.length) :
    (∀ e : Unit, normalize_result (Except.error e) = (false, none)) ∧
    (∀ e : Unit, run_tcp_test (Except.error e) = (false, none)) ∧
    (∀ t : TestResult, tick ci now t (Except.error ())
        = tick ci now t (Except.ok (false, none))) ∧
    (update_tests ci now tests results).getD i default
      = tick ci now (tests.getD i default) (results.getD i default) :=
  ⟨fun _ => rfl, fun _ => rfl, fun _ => rfl,
   update_tests_pointwise ci now tests results i h1 h2⟩

/-- Witness for C7: two tests, the first one's future raised; its recorded
state is the per-test tick on the error, and is computed alongside the
second test's. -/
theorem prober_exception_normalized_witness :
    (0 : Nat) < 2 ∧
    (update_tests 4 "now"
        [TestResult.init "ICMP" none 5 "a", TestResult.init "TCP" (some 80) 5 "b"]
        [Except.error (), Except.ok (true, some 5)]).getD 0 default
      = tick 4 "now" (TestResult.init "ICMP" none 5 "a") (Except.error ()) :=
  ⟨by decide,
   (prober_exception_normalized 4 "now"
      [TestResult.init "ICMP" none 5 "a", TestResult.init "TCP" (some 80) 5 "b"]
      [Except.error (), Except.ok (true, some 5)] 0
      (by decide) (by decide)).2.2.2⟩

/-- C8: the TCP port-range string `"8000-8002"` expands to exactly three
TCP tests with ports 8000, 8001 and 8002, each carrying its own fresh
history buffer of the configured length; the buffers are independent —
writing into one test's history leaves every other test unchanged. -/
theorem port_range_expansion_inclusive (N : Nat) (ctime : String)
    (others : List TestResult) (i j k : Nat) (s : String) (hij : i ≠ j) :
    tcp_tests_for_range "8000-8002" N ctime
      = some [TestResult.init "TCP" (some 8000) N ctime,
              TestResult.init "TCP" (some 8001) N ctime,
              TestResult.init "TCP" (some 8002) N ctime] ∧
    (∀ p ∈ [8000, 8001, 8002],
      (TestResult.init "TCP" (some p) N ctime).protocol = "TCP" ∧
      (TestResult.init "TCP" (some p) N ctime).port = some p ∧
      (TestResult.init "TCP" (some p) N ctime).history = List.replicate N ".") ∧
    (others.set i ((others.getD i default).update_history k s)).getD j default
      = others.getD j default := by
  refine ⟨?_, ?_, ?_⟩
  · have h : expand_port_range "8000-8002" = some [8000, 8001, 8002] := by
      decide
    unfold tcp_tests_for_range
    rw [h]
    rfl
  · intro p _
    have h : str_upper "TCP" = "TCP" := by decide
    exact ⟨h, rfl, rfl⟩
  · simp [List.getD_eq_getElem?_getD, List.getElem?_set_ne hij]

/-- Witness for C8 on a two-test list: writing slot 2 of test 0 leaves
test 1 unchanged. -/
theorem port_range_expansion_inclusive_witness :
    (0 : Nat) ≠ 1 ∧
    ([TestResult.init "TCP" (some 8000) 5 "c",
      TestResult.init "TCP" (some 8001) 5 "c"].set 0
        (([TestResult.init "TCP" (some 8000) 5 "c",
           TestResult.init "TCP" (some 8001) 5 "c"].getD 0 default).update_history 2 "X")).getD 1 default
      = [TestResult.init "TCP" (some 8000) 5 "c",
         TestResult.init "TCP" (some 8001) 5 "c"].getD 1 default :=
  ⟨by decide,
   (port_range_expansion_inclusive 5 "c"
      [TestResult.init "TCP" (some 8000) 5 "c",
       TestResult.init "TCP" (some 8001) 5 "c"] 0 1 2 "X" (by decide)).2.2⟩
